import Mathlib

/-!
Verification of `ui-automation-playwright` (a Playwright-based UI/API test
automation suite) against its natural-language specification.

The development shallowly embeds the relevant Python code:

* `utils/api_client.py` — header merging (`ApiClient._merge_headers`),
  HTTP-status assertion (`ApiClient._assert_status`) and the generic
  business-success assertion (`ApiClient._assert_business_success`);
* `framework/core/config_loader.py` — the recursive dict merge
  (`_merge_dicts`);
* `framework/core/base_page.py` — the timeout handling and the
  exception-flow contracts of `click` / `fill` / `get_text` / `is_visible`;
* `flows/login_flow.py` — default-account resolution
  (`LoginFlow._get_default_account`), `login_should_success` and
  `login_should_fail`.

Python dictionaries are modelled as association lists (first-occurrence
lookup, in-place update), Python scalars by an inductive `PyVal` type with
Python truthiness and Python equality on scalars, raised exceptions by
`Except` / `Option` results.
-/

namespace UIAuto

/-- JSON-like Python value, as produced by `response.json()`:
`None`, `bool`, `int`, `str`, `dict` (association list, insertion order)
and `list`. -/
inductive PyVal where
  | none
  | bool (b : Bool)
  | int (n : Int)
  | str (s : String)
  | dict (entries : List (String × PyVal))
  | pylist (items : List PyVal)

/-- Python truthiness of a `PyVal` (`bool(x)`): `None`, `False`, `0`, `""`,
empty dict and empty list are falsy, everything else truthy. -/
def pyTruthy : PyVal → Bool
  | .none => false
  | .bool b => b
  | .int n => n != 0
  | .str s => s != ""
  | .dict es => !es.isEmpty
  | .pylist xs => !xs.isEmpty

/-- Python `==` on scalar values (numeric cross-type equality between
`bool` and `int`, as in CPython where `False == 0` and `True == 1`).
Set membership only ever applies it to hashable probes (see
`pySetMember`): an unhashable probe raises before any comparison, so the
container cases of this function are never consulted by the model. -/
def pyEq : PyVal → PyVal → Bool
  | .int m, .int n => m == n
  | .int m, .bool b => m == (if b then (1 : Int) else 0)
  | .bool b, .int n => (if b then (1 : Int) else 0) == n
  | .bool a, .bool b => a == b
  | .str s, .str t => s == t
  | .none, .none => true
  | _, _ => false

mutual

/-- Python `repr` of a value (used by `str` on containers inside
f-strings). The exact punctuation of container reprs is irrelevant to the
claims; scalars follow CPython (`None`, `True`, `False`, decimal ints,
quoted strings). -/
def pyRepr : PyVal → String
  | .none => "None"
  | .bool true => "True"
  | .bool false => "False"
  | .int n => toString n
  | .str s => "'" ++ s ++ "'"
  | .dict es => "\x7b" ++ pyReprEntries es ++ "\x7d"
  | .pylist xs => "[" ++ pyReprItems xs ++ "]"

/-- `repr` of the entries of a dict. -/
def pyReprEntries : List (String × PyVal) → String
  | [] => ""
  | [(k, v)] => "'" ++ k ++ "': " ++ pyRepr v
  | (k, v) :: rest => "'" ++ k ++ "': " ++ pyRepr v ++ ", " ++ pyReprEntries rest

/-- `repr` of the items of a list. -/
def pyReprItems : List PyVal → String
  | [] => ""
  | [v] => pyRepr v
  | v :: rest => pyRepr v ++ ", " ++ pyReprItems rest

end

/-- Python `str` of a value, as interpolated by an f-string: a string is
itself, anything else falls back to `repr`. -/
def pyStr : PyVal → String
  | .str s => s
  | v => pyRepr v

/-- First-occurrence lookup in an association list: the semantics of
`d[k]` / `d.get(k)` ∈-tests on a Python dict modelled as an insertion-order
association list. -/
def alookup {α : Type} (k : String) : List (String × α) → Option α
  | [] => Option.none
  | (k₁, v) :: rest => if k = k₁ then some v else alookup k rest

/-- `d.get(k)`: the value under `k`, or `None` when the key is absent. -/
def pyGet (es : List (String × PyVal)) (k : String) : PyVal :=
  match alookup k es with
  | some v => v
  | Option.none => .none

/-- Python `x or y`: `x` when truthy, else `y`. -/
def pyOr (x y : PyVal) : PyVal :=
  if pyTruthy x then x else y

/-- The fixed success-code set of `_assert_business_success`:
`{0, "0", "SUCCESS", "SUCCESSFUL", "OK"}`. -/
def successCodes : List PyVal :=
  [.int 0, .str "0", .str "SUCCESS", .str "SUCCESSFUL", .str "OK"]

/-- Membership of a HASHABLE probe among the elements of a set
(equality-based). This is only the happy path of a CPython set-membership
test; the full operation, including the `TypeError` on unhashable probes,
is `pySetMember`. -/
def pyMember (v : PyVal) (s : List PyVal) : Bool :=
  s.any (fun c => pyEq v c)

/-- CPython hashability: scalars are hashable, `dict` and `list` are not. -/
def pyHashable : PyVal → Bool
  | .dict _ => false
  | .pylist _ => false
  | _ => true

/-- The CPython type name of a value, as it appears in `TypeError`
messages. -/
def pyTypeName : PyVal → String
  | .none => "NoneType"
  | .bool _ => "bool"
  | .int _ => "int"
  | .str _ => "str"
  | .dict _ => "dict"
  | .pylist _ => "list"

/-- CPython set membership `v in s`: the probe is hashed first, so an
unhashable probe (a dict or a list) raises
`TypeError: unhashable type: '...'` before any equality comparison;
a hashable probe is compared against the elements. -/
def pySetMember (v : PyVal) (s : List PyVal) : Except String Bool :=
  if pyHashable v then .ok (pyMember v s)
  else .error ("unhashable type: '" ++ pyTypeName v ++ "'")

/-- A raised Python exception, distinguishing the `AssertionError` of a
business failure from the `TypeError` of an unhashable set-membership
probe. -/
inductive PyError where
  | assertionError (msg : String)
  | typeError (msg : String)
deriving DecidableEq

/-- The message the `code` branch of `_assert_business_success` resolves:
`data.get("msg") or data.get("message") or ""`. -/
def resolvedMsgCodeBranch (data : List (String × PyVal)) : PyVal :=
  pyOr (pyGet data "msg") (pyOr (pyGet data "message") (.str ""))

/-- The message the `success` branch of `_assert_business_success`
resolves: `data.get("message") or data.get("msg") or ""`. -/
def resolvedMsgSuccessBranch (data : List (String × PyVal)) : PyVal :=
  pyOr (pyGet data "message") (pyOr (pyGet data "msg") (.str ""))

/-- `success is True`: holds only for the literal boolean `True`. -/
def isLiteralTrue : PyVal → Bool
  | .bool true => true
  | _ => false

/-- `ApiClient._assert_business_success` (utils/api_client.py:324-361).
`.error (.assertionError e)` models a raised `AssertionError` with message
`e`; `.error (.typeError e)` models the `TypeError` raised by evaluating
`code not in success_codes` (a set literal) on an unhashable code value;
`.ok warned` models a pass, `warned = true` exactly on the
neither-`code`-nor-`success` branch, which logs a warning. -/
def assertBusinessSuccess (data : List (String × PyVal)) : Except PyError Bool :=
  match alookup "code" data with
  | some code =>
    match pySetMember code successCodes with
    | .error e => .error (.typeError e)
    | .ok true => .ok false
    | .ok false =>
      .error (.assertionError ("业务返回失败，code=" ++ pyStr code ++ ", msg="
        ++ pyStr (resolvedMsgCodeBranch data) ++ ", data=" ++ pyRepr (.dict data)))
  | Option.none =>
    match alookup "success" data with
    | some success =>
      if isLiteralTrue success then .ok false
      else
        .error (.assertionError ("业务返回失败，success=" ++ pyStr success ++ ", msg="
          ++ pyStr (resolvedMsgSuccessBranch data) ++ ", data=" ++ pyRepr (.dict data)))
    | Option.none => .ok true

/-- `s` occurs as a contiguous substring of `m`. -/
def containsSub (m s : String) : Prop :=
  ∃ pre post, m = pre ++ s ++ post

/-- `d[k] = v` on a Python dict modelled as an association list: replace
the value at the first occurrence of `k`, or append `(k, v)` when `k` is
absent. -/
def dictInsert {α : Type} (d : List (String × α)) (k : String) (v : α) :
    List (String × α) :=
  match d with
  | [] => [(k, v)]
  | (k₁, v₁) :: rest =>
    if k = k₁ then (k₁, v) :: rest else (k₁, v₁) :: dictInsert rest k v

/-- `_merge_dicts` (framework/core/config_loader.py:77-97): start from a
copy of `base` and iterate over `override`; when the key already maps to a
dict in the accumulated result and the override value is a dict, merge
recursively, otherwise the override value overwrites. -/
def mergeDicts : List (String × PyVal) → List (String × PyVal) → List (String × PyVal)
  | base, [] => base
  | base, (k, .dict o) :: rest =>
    (match alookup k base with
     | some (.dict b) => mergeDicts (dictInsert base k (.dict (mergeDicts b o))) rest
     | _ => mergeDicts (dictInsert base k (.dict o)) rest)
  | base, (k, v) :: rest => mergeDicts (dictInsert base k v) rest

/-- The token-injection step of `ApiClient._merge_headers`
(utils/api_client.py:119-121): `if self._auth_token:
final_headers["Authorization"] = f"Bearer {self._auth_token}"` — the
stored token is `Optional[str]` and the guard is its truthiness, so
nothing is injected for `None` or the empty string. -/
def applyAuthHeader (final : List (String × String)) (authToken : Option String) :
    List (String × String) :=
  match authToken with
  | some t => if t ≠ "" then dictInsert final "Authorization" ("Bearer " ++ t) else final
  | Option.none => final

/-- `ApiClient._merge_headers` (utils/api_client.py:109-127): copy the
default headers, inject `Authorization: Bearer <token>` when the stored
token is truthy, then update with the per-call headers
(`if headers: final_headers.update(headers)`). -/
def mergeHeaders (defaults : List (String × String)) (authToken : Option String)
    (headers : Option (List (String × String))) : List (String × String) :=
  let final := applyAuthHeader defaults authToken
  match headers with
  | some hs =>
    if hs.isEmpty then final
    else hs.foldl (fun acc kv => dictInsert acc kv.1 kv.2) final
  | Option.none => final

/-- The bearer-token layer of the header merge, as a standalone mapping:
the single `Authorization` entry the client injects when the stored token
is truthy, empty otherwise. Used to state the merge precedence. -/
def authHeaderLayer (authToken : Option String) : List (String × String) :=
  match authToken with
  | some t => if t ≠ "" then [("Authorization", "Bearer " ++ t)] else []
  | Option.none => []

/-- The body preview built by `_assert_status`: the full text when it has
at most 500 characters, otherwise its first 500 characters followed by the
truncation marker `...(截断)`. -/
def previewOf (text : List Char) : List Char :=
  if text.length > 500 then text.take 500 ++ ("...(截断)").data else text

/-- `ApiClient._assert_status` (utils/api_client.py:303-322): `some e`
models a raised `AssertionError` with message `e`, `none` a pass. The
response text is a sequence of characters; the preview truncates it to its
first 500 characters plus a marker when longer than 500. -/
def assertStatus (actualStatus expectedStatus : Int) (text : List Char) : Option String :=
  if actualStatus ≠ expectedStatus then
    some ("HTTP 状态码不符合预期，期望=" ++ toString expectedStatus
      ++ "，实际=" ++ toString actualStatus
      ++ "，响应内容预览=" ++ String.mk (previewOf text))
  else Option.none

/-!
### BasePage (framework/core/base_page.py)

Each action method computes `effective_timeout = timeout or
self._medium_timeout` and invokes an underlying Playwright primitive with
that budget. The primitive's behaviour is a parameter: a function from the
effective timeout to `PrimOutcome`, either a successful value or a
`PlaywrightTimeoutError`. A method either returns a value or re-raises the
timeout (`ActOutcome.timeoutRaised`).
-/

/-- Outcome of an underlying Playwright primitive call (`page.click`,
`locator.wait_for`, ...): success with a value, or a
`PlaywrightTimeoutError`. -/
inductive PrimOutcome (α : Type) where
  | ok (a : α)
  | timeout

/-- Outcome of a BasePage action method: a returned value, or a re-raised
`PlaywrightTimeoutError`. -/
inductive ActOutcome (α : Type) where
  | ret (a : α)
  | timeoutRaised
deriving DecidableEq

/-- `timeout or self._medium_timeout`: Python `or` on an optional int, so
`None` and `0` (the only falsy int) both fall back to the configured
medium default. -/
def effectiveTimeout (timeout : Option Int) (medium : Int) : Int :=
  match timeout with
  | some t => if t ≠ 0 then t else medium
  | Option.none => medium

/-- `BasePage.click` (base_page.py:65-78): run the primitive with the
effective timeout; on `PlaywrightTimeoutError`, log and re-raise. -/
def click (timeout : Option Int) (medium : Int) (prim : Int → PrimOutcome Unit) :
    ActOutcome Unit :=
  match prim (effectiveTimeout timeout medium) with
  | .ok a => .ret a
  | .timeout => .timeoutRaised

/-- `BasePage.fill` (base_page.py:80-99): wait for visibility then fill;
on `PlaywrightTimeoutError`, log and re-raise. -/
def fill (timeout : Option Int) (medium : Int) (prim : Int → PrimOutcome Unit) :
    ActOutcome Unit :=
  match prim (effectiveTimeout timeout medium) with
  | .ok a => .ret a
  | .timeout => .timeoutRaised

/-- `BasePage.get_text` (base_page.py:101-119): wait for visibility then
read `inner_text`; on `PlaywrightTimeoutError`, log and re-raise. -/
def get_text (timeout : Option Int) (medium : Int) (prim : Int → PrimOutcome String) :
    ActOutcome String :=
  match prim (effectiveTimeout timeout medium) with
  | .ok s => .ret s
  | .timeout => .timeoutRaised

/-- `BasePage.is_visible` (base_page.py:121-137): wait for visibility and
return `True`; a `PlaywrightTimeoutError` is caught and converted to
`False` (never re-raised). -/
def is_visible (timeout : Option Int) (medium : Int) (prim : Int → PrimOutcome Unit) :
    Bool :=
  match prim (effectiveTimeout timeout medium) with
  | .ok _ => true
  | .timeout => false

/-!
### LoginFlow (flows/login_flow.py)

Credentials are plain strings; `Option String` models Python
`Optional[str]` (`os.getenv` results, `dict.get` results, optional
parameters).
-/

/-- Python truthiness of an `Optional[str]`: `None` and `""` are falsy. -/
def optStrTruthy : Option String → Bool
  | some s => s != ""
  | Option.none => false

/-- One credential of `_get_default_account`
(login_flow.py:50-51): `os.getenv(VAR) or account_cfg.get(key)` — the
environment value when set and non-empty, else the config value (which may
itself be `None`). -/
def resolveCred (env : Option String) (cfg : Option String) : Option String :=
  if optStrTruthy env then env else cfg

/-- `LoginFlow._get_default_account` (login_flow.py:39-59): resolve
username and password (environment first, then config), then
`if not username or not password: raise ValueError(...)`. -/
def getDefaultAccount (envUser envPass cfgUser cfgPass : Option String) :
    Except String (String × String) :=
  let username := resolveCred envUser cfgUser
  let password := resolveCred envPass cfgPass
  if !optStrTruthy username || !optStrTruthy password then
    .error "默认登录账号未配置，请设置环境变量 UI_ACCOUNT_USERNAME / UI_ACCOUNT_PASSWORD 或在配置文件 account 下配置用户名和密码。"
  else
    .ok (username.getD "", password.getD "")

/-- One observable page action performed by `LoginFlow.login`
(login_flow.py:66-88) and the assertion phase of `login_should_success`. -/
inductive LoginAction where
  | openLoginPage
  | inputUsername (u : String)
  | inputPassword (p : String)
  | clickLoginButton
  | waitPageStable
  | assertSuccessVisible
deriving DecidableEq

/-- The action sequence of `LoginFlow.login(username, password)`. -/
def loginActions (username password : String) : List LoginAction :=
  [.openLoginPage, .inputUsername username, .inputPassword password,
   .clickLoginButton, .waitPageStable]

/-- The credential-selection step of `LoginFlow.login_should_success`
(login_flow.py:101-105): when either argument is `None`, BOTH are replaced
by the default account (environment / config); only when both are provided
are the provided values used. -/
def loginShouldSuccessCreds (username password : Option String)
    (envUser envPass cfgUser cfgPass : Option String) :
    Except String (String × String) :=
  if username = Option.none ∨ password = Option.none then
    getDefaultAccount envUser envPass cfgUser cfgPass
  else
    .ok (username.getD "", password.getD "")

/-- `LoginFlow.login_should_success` (login_flow.py:90-115) as a trace:
resolve credentials (possibly raising before any page action), then
perform the login actions, wait for stability, and assert the success
indicator. `.error e` means the flow raised with no action performed. -/
def loginShouldSuccessTrace (username password : Option String)
    (envUser envPass cfgUser cfgPass : Option String) :
    Except String (List LoginAction) :=
  match loginShouldSuccessCreds username password envUser envPass cfgUser cfgPass with
  | .error e => .error e
  | .ok (u, p) =>
    .ok (loginActions u p ++ [.waitPageStable, .assertSuccessVisible])

/-- The three failure indicators `login_should_fail` can assert. -/
inductive FailIndicator where
  | usernameRequired
  | passwordRequired
  | globalError
deriving DecidableEq

/-- The branch structure of `LoginFlow.login_should_fail`
(login_flow.py:117-138): `if not username and password` → username-required
indicator; `elif username and not password` → password-required indicator;
`else` → global account-or-password-incorrect indicator. -/
def loginShouldFailIndicator (username password : String) : FailIndicator :=
  if username = "" ∧ password ≠ "" then .usernameRequired
  else if username ≠ "" ∧ password = "" then .passwordRequired
  else .globalError

/-- `firstSome a b`: `a` when it carries a value, else `b`. Used to state
lookup in a stack of mappings with left-to-right precedence. -/
def firstSome {α : Type} (a b : Option α) : Option α :=
  match a with
  | some v => some v
  | Option.none => b

/-!
### Association-list lemmas
-/

theorem alookup_dictInsert {α : Type} (d : List (String × α)) (k k₀ : String) (v : α) :
    alookup k (dictInsert d k₀ v) = if k = k₀ then some v else alookup k d := by
  induction d with
  | nil =>
    simp only [dictInsert, alookup]
  | cons hd tl ih =>
    obtain ⟨k₁, v₁⟩ := hd
    simp only [dictInsert]
    by_cases h₀ : k₀ = k₁
    · subst h₀
      simp only [if_pos rfl, alookup]
      by_cases h : k = k₀ <;> simp [h]
    · rw [if_neg h₀]
      simp only [alookup]
      by_cases h : k = k₁
      · subst h
        have : ¬ (k = k₀) := fun hc => h₀ (hc ▸ rfl)
        simp [this]
      · simp [h, ih]

theorem alookup_eq_none_of_not_mem {α : Type} (l : List (String × α)) (k : String)
    (h : k ∉ l.map Prod.fst) : alookup k l = Option.none := by
  induction l with
  | nil => rfl
  | cons hd tl ih =>
    obtain ⟨k₁, v₁⟩ := hd
    simp only [List.map_cons, List.mem_cons] at h
    push_neg at h
    simp only [alookup, if_neg h.1]
    exact ih h.2

theorem alookup_foldl_dictInsert {α : Type} (hs : List (String × α)) :
    ∀ (acc : List (String × α)) (k : String), (hs.map Prod.fst).Nodup →
      alookup k (hs.foldl (fun acc kv => dictInsert acc kv.1 kv.2) acc) =
        firstSome (alookup k hs) (alookup k acc) := by
  induction hs with
  | nil =>
    intro acc k _
    simp [alookup, firstSome]
  | cons hd tl ih =>
    intro acc k hnd
    obtain ⟨k₁, v₁⟩ := hd
    simp only [List.map_cons, List.nodup_cons] at hnd
    simp only [List.foldl_cons]
    rw [ih (dictInsert acc k₁ v₁) k hnd.2]
    by_cases h : k = k₁
    · subst h
      rw [alookup_eq_none_of_not_mem tl k hnd.1]
      simp [alookup, alookup_dictInsert, firstSome]
    · simp [alookup, h, alookup_dictInsert, firstSome]

/-- The value the merged dict associates with a key, as a function of the
two sides' values: absent-from-override keeps the base value, dict-on-both
merges recursively, anything else takes the override value. -/
def mergeLookup (bv ov : Option PyVal) : Option PyVal :=
  match ov with
  | Option.none => bv
  | some (.dict o) =>
    match bv with
    | some (.dict b) => some (.dict (mergeDicts b o))
    | _ => some (.dict o)
  | some v => some v

theorem alookup_mergeDicts (override : List (String × PyVal)) :
    ∀ (base : List (String × PyVal)) (k : String), (override.map Prod.fst).Nodup →
      alookup k (mergeDicts base override) =
        mergeLookup (alookup k base) (alookup k override) := by
  induction override with
  | nil =>
    intro base k _
    simp [mergeDicts, alookup, mergeLookup]
  | cons hd tl ih =>
    intro base k hnd
    obtain ⟨k₁, v₁⟩ := hd
    simp only [List.map_cons, List.nodup_cons] at hnd
    have step : ∀ newVal : PyVal,
        alookup k (mergeDicts (dictInsert base k₁ newVal) tl) =
          mergeLookup (alookup k (dictInsert base k₁ newVal)) (alookup k tl) :=
      fun newVal => ih (dictInsert base k₁ newVal) k hnd.2
    by_cases h : k = k₁
    · subst h
      have htl : alookup k tl = Option.none := alookup_eq_none_of_not_mem tl k hnd.1
      cases v₁ with
      | dict o =>
        simp only [mergeDicts]
        cases hb : alookup k base with
        | none =>
          simp [hb, step, htl, alookup_dictInsert, mergeLookup, alookup]
        | some bv =>
          cases bv <;>
            simp [hb, step, htl, alookup_dictInsert, mergeLookup, alookup]
      | none =>
        simp [mergeDicts, step, htl, alookup_dictInsert, mergeLookup, alookup]
      | bool b =>
        simp [mergeDicts, step, htl, alookup_dictInsert, mergeLookup, alookup]
      | int n =>
        simp [mergeDicts, step, htl, alookup_dictInsert, mergeLookup, alookup]
      | str s =>
        simp [mergeDicts, step, htl, alookup_dictInsert, mergeLookup, alookup]
      | pylist xs =>
        simp [mergeDicts, step, htl, alookup_dictInsert, mergeLookup, alookup]
    · cases v₁ with
      | dict o =>
        simp only [mergeDicts]
        cases hb : alookup k₁ base with
        | none =>
          simp [step, alookup_dictInsert, alookup, h]
        | some bv =>
          cases bv <;>
            simp [step, alookup_dictInsert, alookup, h]
      | none =>
        simp [mergeDicts, step, alookup_dictInsert, alookup, h]
      | bool b =>
        simp [mergeDicts, step, alookup_dictInsert, alookup, h]
      | int n =>
        simp [mergeDicts, step, alookup_dictInsert, alookup, h]
      | str s =>
        simp [mergeDicts, step, alookup_dictInsert, alookup, h]
      | pylist xs =>
        simp [mergeDicts, step, alookup_dictInsert, alookup, h]

theorem alookup_applyAuthHeader (defaults : List (String × String))
    (token : Option String) (k : String) :
    alookup k (applyAuthHeader defaults token) =
      firstSome (alookup k (authHeaderLayer token)) (alookup k defaults) := by
  cases token with
  | none => simp [applyAuthHeader, authHeaderLayer, alookup, firstSome]
  | some t =>
    by_cases ht : t = ""
    · simp [applyAuthHeader, authHeaderLayer, ht, alookup, firstSome]
    · by_cases hk : k = "Authorization" <;>
        simp [applyAuthHeader, authHeaderLayer, ht, alookup_dictInsert, alookup,
          firstSome, hk]

theorem alookup_mergeHeaders (defaults hs : List (String × String))
    (token : Option String) (k : String) (hnd : (hs.map Prod.fst).Nodup) :
    alookup k (mergeHeaders defaults token (some hs)) =
      firstSome (alookup k hs) (alookup k (applyAuthHeader defaults token)) := by
  cases hs with
  | nil => simp [mergeHeaders, alookup, firstSome]
  | cons hd tl =>
    simp only [mergeHeaders, List.isEmpty_cons, if_false, Bool.false_eq_true]
    rw [alookup_foldl_dictInsert (hd :: tl) (applyAuthHeader defaults token) k hnd]

/-!
### Claim theorems
-/

/-- Claim C8: merging an empty overlay mapping into any base mapping is
the identity — `_merge_dicts(base, ⦃⦄)` returns (a copy of) `base`
unchanged. -/
theorem mergeDicts_empty_overlay (base : List (String × PyVal)) :
    mergeDicts base [] = base := by
  simp [mergeDicts]

/-- Claim C3: the configuration merge is recursive on nested mappings —
when a key maps to a dict in both sides the results merge recursively,
when a key collides with at least one non-dict value the overlay wins, and
every key present in either side is present in the result. Override keys
are distinct, as they are for every Python dict. -/
theorem mergeDicts_recursive_spec (base override : List (String × PyVal))
    (k : String) (hnd : (override.map Prod.fst).Nodup) :
    (∀ b o, alookup k base = some (.dict b) → alookup k override = some (.dict o) →
      alookup k (mergeDicts base override) = some (.dict (mergeDicts b o)))
    ∧ (∀ v bv, alookup k override = some v → alookup k base = some bv →
        ((∀ es, v ≠ .dict es) ∨ (∀ es, bv ≠ .dict es)) →
        alookup k (mergeDicts base override) = some v)
    ∧ (((∃ v, alookup k base = some v) ∨ (∃ v, alookup k override = some v)) →
        ∃ v, alookup k (mergeDicts base override) = some v) := by
  refine ⟨?_, ?_, ?_⟩
  · intro b o hb ho
    rw [alookup_mergeDicts override base k hnd, hb, ho]
    rfl
  · intro v bv ho hb hne
    rw [alookup_mergeDicts override base k hnd, hb, ho]
    rcases hne with hv | hbv
    · cases v with
      | dict es => exact absurd rfl (hv es)
      | none => rfl
      | bool b => rfl
      | int n => rfl
      | str s => rfl
      | pylist xs => rfl
    · cases v with
      | dict es =>
        cases bv with
        | dict bs => exact absurd rfl (hbv bs)
        | none => rfl
        | bool b => rfl
        | int n => rfl
        | str s => rfl
        | pylist xs => rfl
      | none => rfl
      | bool b => rfl
      | int n => rfl
      | str s => rfl
      | pylist xs => rfl
  · intro hex
    rw [alookup_mergeDicts override base k hnd]
    cases ho : alookup k override with
    | none =>
      rcases hex with ⟨v, hb⟩ | ⟨v, hov⟩
      · exact ⟨v, by rw [hb]; rfl⟩
      · rw [ho] at hov
        cases hov
    | some v =>
      cases v with
      | dict o =>
        cases hb : alookup k base with
        | none => exact ⟨.dict o, rfl⟩
        | some bv =>
          cases bv with
          | dict bs => exact ⟨.dict (mergeDicts bs o), rfl⟩
          | none => exact ⟨.dict o, rfl⟩
          | bool b => exact ⟨.dict o, rfl⟩
          | int n => exact ⟨.dict o, rfl⟩
          | str s => exact ⟨.dict o, rfl⟩
          | pylist xs => exact ⟨.dict o, rfl⟩
      | none => exact ⟨_, rfl⟩
      | bool b => exact ⟨_, rfl⟩
      | int n => exact ⟨_, rfl⟩
      | str s => exact ⟨_, rfl⟩
      | pylist xs => exact ⟨_, rfl⟩

/-- Claim C3 witness: at `base = ⦃a ↦ ⦃x ↦ 1, y ↦ 2⦄⦄` and
`override = ⦃a ↦ ⦃y ↦ 3⦄⦄` the nested dicts are merged recursively. -/
theorem mergeDicts_recursive_spec_witness :
    alookup "a" (mergeDicts
        [("a", PyVal.dict [("x", PyVal.int 1), ("y", PyVal.int 2)])]
        [("a", PyVal.dict [("y", PyVal.int 3)])]) =
      some (PyVal.dict (mergeDicts [("x", PyVal.int 1), ("y", PyVal.int 2)]
        [("y", PyVal.int 3)])) :=
  (mergeDicts_recursive_spec
      [("a", PyVal.dict [("x", PyVal.int 1), ("y", PyVal.int 2)])]
      [("a", PyVal.dict [("y", PyVal.int 3)])] "a" (by simp)).1
    [("x", PyVal.int 1), ("y", PyVal.int 2)] [("y", PyVal.int 3)] rfl rfl

/-- Claim C2 counterexample: after `set_bearer_token("")` a token was set
(the stored optional token holds a value), yet the merged headers carry no
`Authorization` entry, because `_merge_headers` tests the token's
truthiness, not its presence. -/
theorem mergeHeaders_token_counterexample :
    (Option.some "").isSome = true
    ∧ alookup "Authorization" (mergeHeaders [] (some "") Option.none) =
        Option.none :=
  ⟨rfl, rfl⟩

/-- Claim C2 (amended): merged-header precedence is per-call headers,
then the injected bearer-token layer, then the client defaults; the
`Authorization` entry of the token layer is present in the result (absent
a per-call or default `Authorization`) iff a NON-EMPTY token was set.
Per-call header keys are distinct, as they are for every Python dict. -/
theorem mergeHeaders_precedence_spec (defaults hs : List (String × String))
    (token : Option String) (k : String) (hnd : (hs.map Prod.fst).Nodup) :
    (alookup k (mergeHeaders defaults token (some hs)) =
      firstSome (alookup k hs)
        (firstSome (alookup k (authHeaderLayer token)) (alookup k defaults)))
    ∧ (alookup "Authorization" hs = Option.none →
        alookup "Authorization" defaults = Option.none →
        ((alookup "Authorization" (mergeHeaders defaults token (some hs))).isSome
            = true ↔ ∃ t, token = some t ∧ t ≠ "")) := by
  have hmain : alookup k (mergeHeaders defaults token (some hs)) =
      firstSome (alookup k hs)
        (firstSome (alookup k (authHeaderLayer token)) (alookup k defaults)) := by
    rw [alookup_mergeHeaders defaults hs token k hnd, alookup_applyAuthHeader]
  refine ⟨hmain, ?_⟩
  intro hh hd
  have hmain₂ : alookup "Authorization" (mergeHeaders defaults token (some hs)) =
      firstSome (alookup "Authorization" hs)
        (firstSome (alookup "Authorization" (authHeaderLayer token))
          (alookup "Authorization" defaults)) := by
    rw [alookup_mergeHeaders defaults hs token "Authorization" hnd,
      alookup_applyAuthHeader]
  rw [hmain₂, hh, hd]
  cases token with
  | none => simp [authHeaderLayer, alookup, firstSome]
  | some t =>
    by_cases ht : t = ""
    · simp [authHeaderLayer, ht, alookup, firstSome]
    · simp [authHeaderLayer, ht, alookup, firstSome]

/-- Claim C2 witness: with defaults carrying `X` and `Authorization`, a
non-empty token, and a per-call override of `Authorization`, the per-call
value wins over both the injected token header and the default. -/
theorem mergeHeaders_precedence_spec_witness :
    alookup "Authorization" (mergeHeaders
        [("X", "1"), ("Authorization", "Basic d")] (some "tok")
        (some [("Authorization", "Custom c")])) =
      firstSome (alookup "Authorization" [("Authorization", "Custom c")])
        (firstSome (alookup "Authorization" (authHeaderLayer (some "tok")))
          (alookup "Authorization" [("X", "1"), ("Authorization", "Basic d")])) :=
  (mergeHeaders_precedence_spec [("X", "1"), ("Authorization", "Basic d")]
      [("Authorization", "Custom c")] (some "tok") "Authorization" (by simp)).1

/-- Claim C1 counterexample: at the body `⦃code ↦ [], msg ↦ "bad"⦄` the
claim demands an `AssertionError` whose message contains `"bad"`, but the
membership test `code not in success_codes` hashes the probe and raises
`TypeError: unhashable type: 'list'` instead — the check neither passes
nor raises an assertion error. -/
theorem assertBusinessSuccess_unhashable_counterexample :
    assertBusinessSuccess [("code", PyVal.pylist []), ("msg", PyVal.str "bad")] =
      .error (.typeError "unhashable type: 'list'")
    ∧ ∀ m, assertBusinessSuccess [("code", PyVal.pylist []), ("msg", PyVal.str "bad")]
        ≠ .error (.assertionError m) := by
  refine ⟨rfl, ?_⟩
  intro m h
  have h₂ : (Except.error (PyError.typeError "unhashable type: 'list'") :
      Except PyError Bool) = Except.error (PyError.assertionError m) := h
  simp at h₂

/-- Claim C1 (amended): on a body with a `code` key holding a HASHABLE
value, the business-success check passes exactly when the code is a member
of `{0, "0", "SUCCESS", "SUCCESSFUL", "OK"}` (Python membership), and
otherwise raises an `AssertionError` whose message contains the body's
resolved `msg` / `message` value; on an UNHASHABLE code value (a dict or a
list) the set-membership test itself raises a `TypeError`; with no `code`
key but a `success` key the check passes exactly when the value is the
literal boolean `True`; with neither key it passes and logs a warning
(`.ok true`). -/
theorem assertBusinessSuccess_spec (data : List (String × PyVal)) :
    (∀ c, alookup "code" data = some c → pyHashable c = true →
      ((∃ w, assertBusinessSuccess data = .ok w) ↔ pyMember c successCodes = true)
      ∧ (pyMember c successCodes = false →
          ∃ e, assertBusinessSuccess data = .error (.assertionError e)
            ∧ containsSub e (pyStr (resolvedMsgCodeBranch data))))
    ∧ (∀ c, alookup "code" data = some c → pyHashable c = false →
        assertBusinessSuccess data =
          .error (.typeError ("unhashable type: '" ++ pyTypeName c ++ "'")))
    ∧ (alookup "code" data = Option.none →
        ∀ s, alookup "success" data = some s →
          ((∃ w, assertBusinessSuccess data = .ok w) ↔ isLiteralTrue s = true)
          ∧ (isLiteralTrue s = false →
              ∃ e, assertBusinessSuccess data = .error (.assertionError e)
                ∧ containsSub e (pyStr (resolvedMsgSuccessBranch data))))
    ∧ (alookup "code" data = Option.none → alookup "success" data = Option.none →
        assertBusinessSuccess data = .ok true) := by
  refine ⟨?_, ?_, ?_, ?_⟩
  · intro c hc hhash
    cases hmem : pyMember c successCodes with
    | false =>
      constructor
      · simp [assertBusinessSuccess, hc, pySetMember, hhash, hmem]
      · intro _
        refine ⟨"业务返回失败，code=" ++ pyStr c ++ ", msg="
            ++ pyStr (resolvedMsgCodeBranch data) ++ ", data="
            ++ pyRepr (.dict data), ?_, ?_⟩
        · simp [assertBusinessSuccess, hc, pySetMember, hhash, hmem]
        · exact ⟨"业务返回失败，code=" ++ pyStr c ++ ", msg=",
            ", data=" ++ pyRepr (.dict data), String.append_assoc _ _ _⟩
    | true =>
      constructor
      · simp [assertBusinessSuccess, hc, pySetMember, hhash, hmem]
      · intro hfalse
        cases hfalse
  · intro c hc hhash
    simp [assertBusinessSuccess, hc, pySetMember, hhash]
  · intro hc s hs
    cases htrue : isLiteralTrue s with
    | false =>
      constructor
      · simp [assertBusinessSuccess, hc, hs, htrue]
      · intro _
        refine ⟨"业务返回失败，success=" ++ pyStr s ++ ", msg="
            ++ pyStr (resolvedMsgSuccessBranch data) ++ ", data="
            ++ pyRepr (.dict data), ?_, ?_⟩
        · simp [assertBusinessSuccess, hc, hs, htrue]
        · exact ⟨"业务返回失败，success=" ++ pyStr s ++ ", msg=",
            ", data=" ++ pyRepr (.dict data), String.append_assoc _ _ _⟩
    | true =>
      constructor
      · simp [assertBusinessSuccess, hc, hs, htrue]
      · intro hfalse
        cases hfalse
  · intro hc hs
    simp [assertBusinessSuccess, hc, hs]

/-- Claim C1 witness: `⦃code ↦ 1, msg ↦ "bad"⦄` fails the check with an
`AssertionError` message containing `"bad"`; `⦃code ↦ 0⦄` passes;
`⦃code ↦ ⦃⦄⦄` raises a `TypeError`; a body with neither `code` nor
`success` passes with the warning flag. -/
theorem assertBusinessSuccess_spec_witness :
    (∃ e, assertBusinessSuccess [("code", PyVal.int 1), ("msg", PyVal.str "bad")]
        = .error (.assertionError e)
      ∧ containsSub e (pyStr (resolvedMsgCodeBranch
          [("code", PyVal.int 1), ("msg", PyVal.str "bad")])))
    ∧ (∃ w, assertBusinessSuccess [("code", PyVal.int 0)] = .ok w)
    ∧ assertBusinessSuccess [("code", PyVal.dict [])] =
        .error (.typeError "unhashable type: 'dict'")
    ∧ assertBusinessSuccess [("other", PyVal.int 7)] = .ok true :=
  ⟨((assertBusinessSuccess_spec [("code", PyVal.int 1), ("msg", PyVal.str "bad")]).1
      (PyVal.int 1) rfl rfl).2 rfl,
   ((assertBusinessSuccess_spec [("code", PyVal.int 0)]).1
      (PyVal.int 0) rfl rfl).1.mpr rfl,
   (assertBusinessSuccess_spec [("code", PyVal.dict [])]).2.1
      (PyVal.dict []) rfl rfl,
   (assertBusinessSuccess_spec [("other", PyVal.int 7)]).2.2.2 rfl rfl⟩

/-- Claim C4: `login_should_fail` asserts the username-required indicator
(and not the global one) for an empty username with a non-empty password,
the password-required indicator for a non-empty username with an empty
password, and the global account-or-password-incorrect indicator when both
are non-empty. -/
theorem login_should_fail_spec (username password : String) :
    (username = "" → password ≠ "" →
      loginShouldFailIndicator username password = .usernameRequired
      ∧ loginShouldFailIndicator username password ≠ .globalError)
    ∧ (username ≠ "" → password = "" →
        loginShouldFailIndicator username password = .passwordRequired)
    ∧ (username ≠ "" → password ≠ "" →
        loginShouldFailIndicator username password = .globalError) := by
  refine ⟨?_, ?_, ?_⟩
  · intro h1 h2
    constructor <;> simp [loginShouldFailIndicator, h1, h2]
  · intro h1 h2
    simp [loginShouldFailIndicator, h1, h2]
  · intro h1 h2
    simp [loginShouldFailIndicator, h1, h2]

/-- Claim C4 witness: the three branches at the concrete credential pairs
`("", "x")`, `("u", "")` and `("u", "x")`. -/
theorem login_should_fail_spec_witness :
    loginShouldFailIndicator "" "x" = .usernameRequired
    ∧ loginShouldFailIndicator "u" "" = .passwordRequired
    ∧ loginShouldFailIndicator "u" "x" = .globalError :=
  ⟨((login_should_fail_spec "" "x").1 rfl (by simp)).1,
   (login_should_fail_spec "u" "").2.1 (by simp) rfl,
   (login_should_fail_spec "u" "x").2.2 (by simp) (by simp)⟩

/-- Claim C5: with no arguments, `login_should_success` resolves each
credential from its environment variable when that is set and non-empty,
else from the configuration's account section; and when either resolved
credential is missing or empty the flow raises (so no login action is
performed — an `.error` trace carries no actions). -/
theorem login_default_account_spec :
    (∀ env cfg s, env = some s → s ≠ "" → resolveCred env cfg = some s)
    ∧ (∀ env cfg, env = Option.none ∨ env = some "" → resolveCred env cfg = cfg)
    ∧ (∀ envU envP cfgU cfgP,
        optStrTruthy (resolveCred envU cfgU) = false
          ∨ optStrTruthy (resolveCred envP cfgP) = false →
        ∃ e, loginShouldSuccessTrace Option.none Option.none
            envU envP cfgU cfgP = .error e)
    ∧ (∀ envU envP cfgU cfgP u p,
        resolveCred envU cfgU = some u → u ≠ "" →
        resolveCred envP cfgP = some p → p ≠ "" →
        loginShouldSuccessTrace Option.none Option.none envU envP cfgU cfgP =
          .ok (loginActions u p ++ [.waitPageStable, .assertSuccessVisible])) := by
  refine ⟨?_, ?_, ?_, ?_⟩
  · intro env cfg s h hs
    subst h
    simp [resolveCred, optStrTruthy, hs]
  · intro env cfg h
    rcases h with h | h <;> subst h <;> simp [resolveCred, optStrTruthy]
  · intro envU envP cfgU cfgP h
    have hcond : (!optStrTruthy (resolveCred envU cfgU)
        || !optStrTruthy (resolveCred envP cfgP)) = true := by
      rcases h with h | h <;> simp [h]
    simp [loginShouldSuccessTrace, loginShouldSuccessCreds, getDefaultAccount, hcond]
  · intro envU envP cfgU cfgP u p hu hu0 hp hp0
    simp [loginShouldSuccessTrace, loginShouldSuccessCreds, getDefaultAccount,
      hu, hp, optStrTruthy, hu0, hp0]

/-- Claim C5 witness: with all four sources empty the flow raises before
acting; with the environment supplying both credentials the flow runs the
login actions with them. -/
theorem login_default_account_spec_witness :
    (∃ e, loginShouldSuccessTrace Option.none Option.none
        Option.none Option.none Option.none Option.none = .error e)
    ∧ loginShouldSuccessTrace Option.none Option.none
        (some "u") (some "p") Option.none Option.none =
      .ok (loginActions "u" "p" ++ [.waitPageStable, .assertSuccessVisible]) :=
  ⟨login_default_account_spec.2.2.1 Option.none Option.none Option.none Option.none
      (Or.inl rfl),
   login_default_account_spec.2.2.2 (some "u") (some "p") Option.none Option.none
      "u" "p" (by simp [resolveCred, optStrTruthy]) (by simp)
      (by simp [resolveCred, optStrTruthy]) (by simp)⟩

/-- Claim C10: calling `login_should_success` with exactly one of
username/password provided discards the provided value — the credential
pair used is exactly the default account, independent of the provided
value. -/
theorem login_creds_discard_partial_spec (u p : String)
    (envU envP cfgU cfgP : Option String) :
    loginShouldSuccessCreds (some u) Option.none envU envP cfgU cfgP =
      getDefaultAccount envU envP cfgU cfgP
    ∧ loginShouldSuccessCreds Option.none (some p) envU envP cfgU cfgP =
      getDefaultAccount envU envP cfgU cfgP := by
  constructor <;> simp [loginShouldSuccessCreds]

/-- Claim C9: a timeout argument of `0` behaves exactly like an omitted
timeout in every BasePage action method: `timeout or self._medium_timeout`
tests truthiness, and `0` is falsy, so the medium default is used. -/
theorem timeout_zero_is_default_spec (medium : Int)
    (primU : Int → PrimOutcome Unit) (primS : Int → PrimOutcome String) :
    effectiveTimeout (some 0) medium = medium
    ∧ effectiveTimeout Option.none medium = medium
    ∧ click (some 0) medium primU = click Option.none medium primU
    ∧ fill (some 0) medium primU = fill Option.none medium primU
    ∧ get_text (some 0) medium primS = get_text Option.none medium primS
    ∧ is_visible (some 0) medium primU = is_visible Option.none medium primU := by
  refine ⟨?_, rfl, ?_, ?_, ?_, ?_⟩ <;>
    simp [effectiveTimeout, click, fill, get_text, is_visible]

/-- Claim C7: `is_visible` converts a primitive timeout into `false` (and
a success into `true`) instead of propagating it, while `click`, `fill`
and `get_text` re-raise the timeout to the caller. -/
theorem is_visible_timeout_polarity_spec (t : Option Int) (medium : Int)
    (primU : Int → PrimOutcome Unit) (primS : Int → PrimOutcome String) :
    (primU (effectiveTimeout t medium) = .timeout →
      is_visible t medium primU = false
      ∧ click t medium primU = .timeoutRaised
      ∧ fill t medium primU = .timeoutRaised)
    ∧ (primU (effectiveTimeout t medium) = .ok () →
        is_visible t medium primU = true)
    ∧ (primS (effectiveTimeout t medium) = .timeout →
        get_text t medium primS = .timeoutRaised) := by
  refine ⟨?_, ?_, ?_⟩ <;> intro h <;>
    simp [is_visible, click, fill, get_text, h]

/-- Claim C7 witness: at a primitive that always times out `is_visible`
returns `false` and `click` re-raises; at one that succeeds `is_visible`
returns `true`. -/
theorem is_visible_timeout_polarity_spec_witness :
    (is_visible Option.none 5000 (fun _ => PrimOutcome.timeout) = false
      ∧ click Option.none 5000 (fun _ => PrimOutcome.timeout) = .timeoutRaised
      ∧ fill Option.none 5000 (fun _ => PrimOutcome.timeout) = .timeoutRaised)
    ∧ is_visible Option.none 5000 (fun _ => PrimOutcome.ok ()) = true :=
  ⟨(is_visible_timeout_polarity_spec Option.none 5000
      (fun _ => PrimOutcome.timeout) (fun _ => PrimOutcome.timeout)).1 rfl,
   (is_visible_timeout_polarity_spec Option.none 5000
      (fun _ => PrimOutcome.ok ()) (fun _ => PrimOutcome.timeout)).2.1 rfl⟩

/-- Claim C6: the status check raises exactly when actual ≠ expected; the
message contains both status codes and the body preview, which is the full
text when it has at most 500 characters and its first 500 characters plus
the truncation marker otherwise. -/
theorem assertStatus_spec (actual expected : Int) (text : List Char) :
    (assertStatus actual expected text = Option.none ↔ actual = expected)
    ∧ (actual ≠ expected →
        ∃ m, assertStatus actual expected text = some m
          ∧ containsSub m (toString expected)
          ∧ containsSub m (toString actual)
          ∧ containsSub m (String.mk (previewOf text)))
    ∧ (text.length ≤ 500 → previewOf text = text)
    ∧ (text.length > 500 →
        previewOf text = text.take 500 ++ ("...(截断)").data
        ∧ (text.take 500).length = 500) := by
  refine ⟨?_, ?_, ?_, ?_⟩
  · constructor
    · intro h
      by_contra hne
      simp [assertStatus, hne] at h
    · intro h
      simp [assertStatus, h]
  · intro hne
    refine ⟨"HTTP 状态码不符合预期，期望=" ++ toString expected
        ++ "，实际=" ++ toString actual
        ++ "，响应内容预览=" ++ String.mk (previewOf text), ?_, ?_, ?_, ?_⟩
    · simp [assertStatus, hne]
    · exact ⟨"HTTP 状态码不符合预期，期望=",
        "，实际=" ++ toString actual ++ "，响应内容预览=" ++ String.mk (previewOf text),
        by simp [String.append_assoc]⟩
    · exact ⟨"HTTP 状态码不符合预期，期望=" ++ toString expected ++ "，实际=",
        "，响应内容预览=" ++ String.mk (previewOf text),
        by simp [String.append_assoc]⟩
    · exact ⟨"HTTP 状态码不符合预期，期望=" ++ toString expected
        ++ "，实际=" ++ toString actual ++ "，响应内容预览=", "",
        by simp [String.append_assoc]⟩
  · intro h
    simp [previewOf]
    omega
  · intro h
    constructor
    · simp [previewOf, h]
    · rw [List.length_take]
      omega

/-- Claim C6 witness: status 404 against expected 200 raises with a
message containing both codes and the (short, untruncated) body. -/
theorem assertStatus_spec_witness :
    ∃ m, assertStatus 404 200 ("oops").data = some m
      ∧ containsSub m (toString (200 : Int))
      ∧ containsSub m (toString (404 : Int))
      ∧ containsSub m (String.mk (previewOf ("oops").data)) :=
  (assertStatus_spec 404 200 ("oops").data).2.1 (by decide)

end UIAuto
